import Mathlib

/-!
Verification development for the `social_media_outreach` Odoo add-on.

The embedding below models, from `src/models/profile_request.py` and
`src/models/res_config_settings.py`:
  - a JSON value type and a parser modelling Python's `json.loads`
    (standard JSON grammar; whitespace-tolerant, full-input parse);
  - the regex fallback `re.search(r'(\x7b.*\x7d)', text, re.DOTALL)`,
    i.e. the span from the first opening brace to the last closing brace;
  - the poll loop and message retrieval of `_call_openai_assistant`;
  - the per-record orchestration of `action_send_now` (duplicate check,
    parse, webhook, log creation, exception path) and the batch loop;
  - the constraint `_check_url_or_image`;
  - `action_test_connection` from the settings model.

External HTTP effects are modelled as explicit oracle inputs (the poll
responses, the fetched messages, the webhook response); timestamps are an
abstract `Nat` supplied by the environment.  Char fields follow Python/Odoo
truthiness: the empty string stands for an unset Char field.
-/

namespace SocialMediaOutreach

/-- The opening curly brace character, written numerically. -/
def obrace : Char := Char.ofNat 123

/-- The closing curly brace character, written numerically. -/
def cbrace : Char := Char.ofNat 125

/-- The double-quote character. -/
def dquote : Char := Char.ofNat 34

/-- The backslash character. -/
def bslash : Char := Char.ofNat 92

/-- JSON values as produced by `json.loads`.  Numbers keep their source
lexeme: no claim depends on numeric value beyond zero-ness, and this avoids
floating point. -/
inductive Json where
  | null : Json
  | bool : Bool → Json
  | num : String → Json
  | str : String → Json
  | arr : List Json → Json
  | obj : List (String × Json) → Json

/-- Python truthiness of a number lexeme: a valid JSON number is zero iff
every character of its significand (the part before any exponent marker) is
one of digit zero, dot, plus or minus. -/
def numIsZero (lexeme : String) : Bool :=
  let significand := lexeme.data.takeWhile (fun c => c ≠ 'e' ∧ c ≠ 'E')
  significand.all (fun c => c = '0' ∨ c = '.' ∨ c = '-' ∨ c = '+')

/-- Python truthiness of a JSON value (`None`, `False`, `0`, empty string,
empty list and empty dict are falsy). -/
def Json.truthy : Json → Bool
  | .null => false
  | .bool b => b
  | .num lexeme => !numIsZero lexeme
  | .str s => s ≠ ""
  | .arr xs => !xs.isEmpty
  | .obj kvs => !kvs.isEmpty

/-- Lookup modelling `dict.get(key)`: Python dicts built by `json.loads`
keep the last value bound to a repeated key, so lookup scans the member
list from the right. -/
def jget (kvs : List (String × Json)) (key : String) : Option Json :=
  match kvs.reverse.find? (fun kv => kv.fst = key) with
  | some kv => some kv.snd
  | none => none

/-- Python `x or default` where `x` is a `dict.get` result (`None` when the
key is missing). -/
def pyOr (x : Option Json) (dflt : Json) : Json :=
  match x with
  | some v => if v.truthy then v else dflt
  | none => dflt

/-- Rendering of a JSON value used where the Python code treats the value as
a string (the claims only exercise string-valued fields, for which this is
exact). -/
def Json.asStr : Json → String
  | .str s => s
  | .null => "None"
  | .bool b => if b then "True" else "False"
  | .num lexeme => lexeme
  | .arr _ => "[...]"
  | .obj _ => String.singleton obrace ++ "..." ++ String.singleton cbrace

/-- JSON whitespace accepted between tokens by `json.loads`. -/
def isJsonWs (c : Char) : Bool :=
  c = ' ' ∨ c = Char.ofNat 9 ∨ c = Char.ofNat 10 ∨ c = Char.ofNat 13

/-- Skip JSON whitespace. -/
def skipWs (cs : List Char) : List Char :=
  cs.dropWhile isJsonWs

/-- Hexadecimal digit value. -/
def hexVal (c : Char) : Option Nat :=
  if '0' ≤ c ∧ c ≤ '9' then some (c.toNat - '0'.toNat)
  else if 'a' ≤ c ∧ c ≤ 'f' then some (c.toNat - 'a'.toNat + 10)
  else if 'A' ≤ c ∧ c ≤ 'F' then some (c.toNat - 'A'.toNat + 10)
  else none

/-- Parse the four hex digits of a `\uXXXX` escape. -/
def parseHex4 : List Char → Option (Nat × List Char)
  | a :: b :: c :: d :: rest =>
    match hexVal a, hexVal b, hexVal c, hexVal d with
    | some va, some vb, some vc, some vd =>
      some (((va * 16 + vb) * 16 + vc) * 16 + vd, rest)
    | _, _, _, _ => none
  | _ => none

/-- Parse the body of a JSON string after the opening quote, consuming the
closing quote. -/
def parseStringBody : Nat → List Char → Option (String × List Char)
  | 0, _ => none
  | _, [] => none
  | fuel + 1, c :: rest =>
    if c = dquote then
      some ("", rest)
    else if c = bslash then
      match rest with
      | [] => none
      | e :: rest2 =>
        let decoded : Option (Char × List Char) :=
          if e = dquote then some (dquote, rest2)
          else if e = bslash then some (bslash, rest2)
          else if e = '/' then some ('/', rest2)
          else if e = 'b' then some (Char.ofNat 8, rest2)
          else if e = 'f' then some (Char.ofNat 12, rest2)
          else if e = 'n' then some (Char.ofNat 10, rest2)
          else if e = 'r' then some (Char.ofNat 13, rest2)
          else if e = 't' then some (Char.ofNat 9, rest2)
          else if e = 'u' then
            match parseHex4 rest2 with
            | some (n, rest3) => some (Char.ofNat n, rest3)
            | none => none
          else none
        match decoded with
        | some (d, rest2) =>
          match parseStringBody fuel rest2 with
          | some (s, rest3) => some (String.singleton d ++ s, rest3)
          | none => none
        | none => none
    else if c.toNat < 32 then
      none
    else
      match parseStringBody fuel rest with
      | some (s, rest2) => some (String.singleton c ++ s, rest2)
      | none => none

/-- One or more decimal digits. -/
def parseDigits : List Char → Option (List Char × List Char)
  | cs =>
    let digits := cs.takeWhile (fun c => '0' ≤ c ∧ c ≤ '9')
    if digits.isEmpty then none else some (digits, cs.drop digits.length)

/-- Parse a JSON number lexeme (`-? int frac? exp?`), returning the lexeme. -/
def parseNumber (cs : List Char) : Option (String × List Char) :=
  let (minusPart, afterMinus) :=
    match cs with
    | '-' :: rest => ([('-' : Char)], rest)
    | _ => ([], cs)
  match parseDigits afterMinus with
  | none => none
  | some (intPart, afterInt) =>
    let (fracPart, afterFrac) :=
      match afterInt with
      | '.' :: rest =>
        match parseDigits rest with
        | some (ds, rest2) => (('.' : Char) :: ds, rest2)
        | none => ([], afterInt)
      | _ => ([], afterInt)
    -- json.loads rejects "1." (a dot must be followed by digits); when the
    -- digits are missing the dot is simply not part of the number and the
    -- overall parse fails later on the leftover input.
    let (expPart, afterExp) :=
      match afterFrac with
      | e :: rest =>
        if e = 'e' ∨ e = 'E' then
          match rest with
          | s :: rest2 =>
            if s = '+' ∨ s = '-' then
              match parseDigits rest2 with
              | some (ds, rest3) => (e :: s :: ds, rest3)
              | none => ([], afterFrac)
            else
              match parseDigits rest with
              | some (ds, rest3) => (e :: ds, rest3)
              | none => ([], afterFrac)
          | [] => ([], afterFrac)
        else ([], afterFrac)
      | [] => ([], afterFrac)
    some (String.mk (minusPart ++ intPart ++ fracPart ++ expPart), afterExp)

/-- Does `cs` start with the literal word `w`?  Returns the rest if so. -/
def stripLiteral (w : List Char) (cs : List Char) : Option (List Char) :=
  if cs.take w.length = w then some (cs.drop w.length) else none

mutual

/-- Parse one JSON value (leading whitespace already skipped). -/
def parseValue : Nat → List Char → Option (Json × List Char)
  | 0, _ => none
  | fuel + 1, cs =>
    match cs with
    | [] => none
    | c :: rest =>
      if c = obrace then
        match skipWs rest with
        | c2 :: rest2 =>
          if c2 = cbrace then some (.obj [], rest2)
          else parseMembers fuel (c2 :: rest2)
        | [] => none
      else if c = '[' then
        match skipWs rest with
        | c2 :: rest2 =>
          if c2 = ']' then some (.arr [], rest2)
          else parseElements fuel (c2 :: rest2)
        | [] => none
      else if c = dquote then
        match parseStringBody (rest.length + 1) rest with
        | some (s, rest2) => some (.str s, rest2)
        | none => none
      else if c = 't' then
        match stripLiteral ['t', 'r', 'u', 'e'] cs with
        | some rest2 => some (.bool true, rest2)
        | none => none
      else if c = 'f' then
        match stripLiteral ['f', 'a', 'l', 's', 'e'] cs with
        | some rest2 => some (.bool false, rest2)
        | none => none
      else if c = 'n' then
        match stripLiteral ['n', 'u', 'l', 'l'] cs with
        | some rest2 => some (.null, rest2)
        | none => none
      else if c = 'N' then
        -- Python's json.loads accepts the non-standard NaN constant.
        match stripLiteral ['N', 'a', 'N'] cs with
        | some rest2 => some (.num "NaN", rest2)
        | none => none
      else if c = 'I' then
        match stripLiteral ['I', 'n', 'f', 'i', 'n', 'i', 't', 'y'] cs with
        | some rest2 => some (.num "Infinity", rest2)
        | none => none
      else if c = '-' ∧ rest.take 8 = ['I', 'n', 'f', 'i', 'n', 'i', 't', 'y'] then
        some (.num "-Infinity", rest.drop 8)
      else
        match parseNumber cs with
        | some (lexeme, rest2) => some (.num lexeme, rest2)
        | none => none

/-- Parse the members of a non-empty object, up to and including the closing
brace (the cursor stands on the first member's opening quote). -/
def parseMembers : Nat → List Char → Option (Json × List Char)
  | 0, _ => none
  | fuel + 1, cs =>
    match cs with
    | c :: rest =>
      if c = dquote then
        match parseStringBody (rest.length + 1) rest with
        | some (key, rest2) =>
          match skipWs rest2 with
          | ':' :: rest3 =>
            match parseValue fuel (skipWs rest3) with
            | some (v, rest4) =>
              match skipWs rest4 with
              | d :: rest5 =>
                if d = cbrace then some (.obj [(key, v)], rest5)
                else if d = ',' then
                  match parseMembers fuel (skipWs rest5) with
                  | some (.obj kvs, rest6) => some (.obj ((key, v) :: kvs), rest6)
                  | _ => none
                else none
              | [] => none
            | none => none
          | _ => none
        | none => none
      else none
    | [] => none

/-- Parse the elements of a non-empty array, up to and including the closing
bracket (the cursor stands on the first element). -/
def parseElements : Nat → List Char → Option (Json × List Char)
  | 0, _ => none
  | fuel + 1, cs =>
    match parseValue fuel cs with
    | some (v, rest) =>
      match skipWs rest with
      | ']' :: rest2 => some (.arr [v], rest2)
      | ',' :: rest2 =>
        match parseElements fuel (skipWs rest2) with
        | some (.arr vs, rest3) => some (.arr (v :: vs), rest3)
        | _ => none
      | _ => none
    | none => none

end

/-- Model of Python's `json.loads`: parse a complete JSON document, allowing
surrounding whitespace, rejecting trailing garbage.  `none` models a raised
`json.JSONDecodeError`. -/
def jsonLoads (text : String) : Option Json :=
  match parseValue (2 * text.data.length + 4) (skipWs text.data) with
  | some (v, rest) => if (skipWs rest).isEmpty then some v else none
  | none => none

/-- Index of the first occurrence of `c`, if any. -/
def firstIdxOf (c : Char) : List Char → Option Nat
  | [] => none
  | x :: xs =>
    if x = c then some 0
    else
      match firstIdxOf c xs with
      | some k => some (k + 1)
      | none => none

/-- Index of the last occurrence of `c`, if any. -/
def lastIdxOf (c : Char) : List Char → Option Nat
  | [] => none
  | x :: xs =>
    match lastIdxOf c xs with
    | some k => some (k + 1)
    | none => if x = c then some 0 else none

/-- Model of `re.search(r'(\x7b.*\x7d)', text, re.DOTALL)`: the leftmost
match of a greedy brace span.  A match exists iff some closing brace stands
strictly after the first opening brace, and it then runs from the first
opening brace to the last closing brace of the whole text. -/
def extractBraceSpan (text : String) : Option String :=
  match firstIdxOf obrace text.data, lastIdxOf cbrace text.data with
  | some i, some j =>
    if i < j then some (String.mk ((text.data.drop i).take (j - i + 1))) else none
  | _, _ => none

/-!  Assistant client: poll loop and message retrieval
(`_call_openai_assistant`, steps 3 and 4).  The earlier HTTP steps (image
upload, thread creation, run start) are modelled by the `pre` argument:
their failures raise before any polling happens. -/

/-- One response to a `GET` of the run-status endpoint. -/
inductive PollResp where
  | httpErr : Nat → String → PollResp
  | ok : String → PollResp

/-- Outcome of the poll loop, carrying the number of executed sleeps (one
sleep of `poll_interval = 3` seconds precedes every status GET). -/
inductive PollResult where
  | success : Nat → PollResult
  | httpFailure : Nat → Nat → String → PollResult
  | runFailed : Nat → String → PollResult
  | timeout : Nat → Nat → PollResult

/-- The poll loop of `_call_openai_assistant`: `k` status GETs have already
happened; after the `k`-th sleep the elapsed wait is `3 * k` seconds.  The
checks mirror the source order: HTTP error, terminal success
(`completed`/`requires_action`), terminal failure
(`failed`/`cancelled`/`expired`), then the 60-second ceiling.  The fuel
argument only bounds recursion: a run of the loop started with fuel 20
always exits through one of the four outcomes before exhausting it, because
`waited ≥ 60` holds from the 20th iteration on. -/
def pollAux (polls : Nat → PollResp) : Nat → Nat → PollResult
  | k, fuel + 1 =>
    let waited := 3 * (k + 1)
    match polls k with
    | .httpErr code body => .httpFailure (k + 1) code body
    | .ok status =>
      if status = "completed" ∨ status = "requires_action" then
        .success (k + 1)
      else if status = "failed" ∨ status = "cancelled" ∨ status = "expired" then
        .runFailed (k + 1) status
      else if waited ≥ 60 then
        .timeout (k + 1) waited
      else
        pollAux polls (k + 1) fuel
  | k, 0 => .timeout k (3 * k)

/-- The poll loop entered with `waited = 0`. -/
def pollRun (polls : Nat → PollResp) : PollResult :=
  pollAux polls 0 20

/-- One content part of a fetched thread message (`item.get("type")` and
`item.get("text", dict()).get("value", "")`). -/
structure ContentItem where
  type : String
  value : String

/-- One fetched thread message. -/
structure Msg where
  role : String
  content : List ContentItem

/-- First text-typed content part of a message, if any. -/
def firstTextItem : List ContentItem → Option String
  | [] => none
  | item :: rest =>
    if item.type = "text" then some item.value else firstTextItem rest

/-- Scan of the fetched messages: the first assistant-authored message that
has a text part yields that part's value; otherwise the empty string. -/
def firstAssistantText : List Msg → String
  | [] => ""
  | m :: rest =>
    if m.role = "assistant" then
      match firstTextItem m.content with
      | some v => v
      | none => firstAssistantText rest
    else
      firstAssistantText rest

/-- Result of an assistant-client call, with the sleep count of its poll
loop (each sleep is 3 time units). -/
structure ClientOutcome where
  result : Except String String
  sleeps : Nat

/-- Model of `_call_openai_assistant` from the poll stage on.  `pre` stands
for the image-upload / thread-creation / run-start steps, which raise before
any polling; `fetchResp` is the response to the final messages GET. -/
def callOpenaiAssistant (pre : Except String Unit)
    (polls : Nat → PollResp)
    (fetchResp : Except (Nat × String) (List Msg)) : ClientOutcome :=
  match pre with
  | .error e => { result := .error e, sleeps := 0 }
  | .ok _ =>
    match pollRun polls with
    | .httpFailure s code body =>
      { result := .error ("Failed to poll Assistant run. HTTP " ++ toString code ++ ": " ++ body)
        sleeps := s }
    | .runFailed s status =>
      { result := .error ("Assistant run ended with status: " ++ status), sleeps := s }
    | .timeout s waited =>
      { result := .error ("Assistant run timeout after " ++ toString waited ++ " seconds")
        sleeps := s }
    | .success s =>
      match fetchResp with
      | .error (code, body) =>
        { result := .error ("Failed to fetch Assistant messages. HTTP " ++ toString code ++ ": " ++ body)
          sleeps := s }
      | .ok msgs => { result := .ok (firstAssistantText msgs), sleeps := s }

/-!  Data model (`ai.profile.request`, `ai.profile.log`) and the per-record
orchestration of `action_send_now`.  Char fields are strings with the empty
string standing for an unset (Python-falsy) field. -/

/-- An `ai.profile.request` record. -/
structure ProfileRequest where
  id : Nat
  profile_url : String
  profile_image : Option String
  status : String
  last_profile_name : String
  last_response_status : String
  last_sent_at : Option Nat
deriving DecidableEq

/-- An `ai.profile.log` record (immutable audit row). -/
structure ProfileLog where
  id : Nat
  request_id : Nat
  profile_name : String
  brand : String
  profile_url : String
  status : String
  message : String
  response_json : String
  sent_at : Nat
deriving DecidableEq

/-- The `@api.constrains` check `_check_url_or_image`: a record with neither
a profile URL nor a profile image is rejected at persist time, before any
network call can be made on its behalf. -/
def checkUrlOrImage (r : ProfileRequest) : Except String Unit :=
  if r.profile_url = "" ∧ r.profile_image = none then
    .error "Please provide either a Profile URL or a Profile Image."
  else
    .ok ()

/-- Number of images attached to a request: the model has a single binary
image field, so a record carries zero or one image. -/
def imageCount (r : ProfileRequest) : Nat :=
  if r.profile_image.isSome then 1 else 0

/-- Configuration parameters read by `action_send_now`
(`ir.config_parameter` keys of this add-on; the empty string models an
unset parameter). -/
structure Config where
  api_key : String
  assistant_id : String
  api_base : String
  webhook_url : String
deriving DecidableEq

/-- Latest element by `id` of a list of logs (`order="id desc", limit=1`). -/
def pickLatest : List ProfileLog → Option ProfileLog
  | [] => none
  | l :: ls =>
    match pickLatest ls with
    | none => some l
    | some m => some (if m.id < l.id then l else m)

/-- The duplicate search of `action_send_now`:
`search([(profile_url, =, url), (status, =, success)], limit=1, order="id desc")`. -/
def searchDuplicate (logs : List ProfileLog) (url : String) : Option ProfileLog :=
  pickLatest (logs.filter (fun l => l.profile_url == url && l.status == "success"))

/-- The reply-parsing block of `action_send_now`: a direct `json.loads`,
then on decode error the greedy brace-span regex fallback.  Returns the
parsed value (if any) and the recorded parse error (if any).  The text of
the Python exception embedded in the fallback's error message is modelled
by a fixed marker, since only its presence matters downstream. -/
def parseReply (text : String) : Option Json × Option String :=
  match jsonLoads text with
  | some j => (some j, none)
  | none =>
    match extractBraceSpan text with
    | some span =>
      match jsonLoads span with
      | some j => (some j, none)
      | none => (none, some "Regex found block but failed to parse: (JSONDecodeError)")
    | none => (none, some "No JSON object found in response")

/-- Outcome of the webhook GET: an HTTP response with a status code, or a
raised exception rendered as text. -/
inductive WebhookResult where
  | resp : Nat → WebhookResult
  | exc : String → WebhookResult
deriving DecidableEq

/-- External effects consumed by one record's send: the assistant-client
outcome (an exception text on error), the webhook outcome (consulted only
if the webhook GET is issued), and the current timestamp. -/
structure SendEnv where
  clientResult : Except String String
  webhook : WebhookResult
  now : Nat

/-- Observable outcome of `action_send_now` on one record: the updated
record, the log rows created, the exception propagated to the caller (if
any), and whether the assistant client and the webhook were invoked. -/
structure SendOutcome where
  record : ProfileRequest
  newLogs : List ProfileLog
  raised : Option String
  assistantCalled : Bool
  webhookCalled : Bool

/-- The status-message suffix appended by the webhook block for a given
webhook outcome (`status_code == 200` is the only success). -/
def webhookSuffix : WebhookResult → String
  | .resp code =>
    if code = 200 then " | Webhook Sent"
    else " | Webhook Failed (" ++ toString code ++ ")"
  | .exc m => " | Webhook Error: " ++ m

/-- A webhook outcome counts as failed when its HTTP status is not 200 or
it raised. -/
def webhookFailed : WebhookResult → Bool
  | .resp code => code != 200
  | .exc _ => true

/-- The duplicate short-circuit outcome of `action_send_now` (`continue`,
so nothing is raised and the assistant is never called). -/
def dupOutcome (env : SendEnv) (r : ProfileRequest) (logId : Nat)
    (dl : ProfileLog) : SendOutcome :=
  { record := { r with status := "failed"
                       last_response_status := "Duplication: URL already processed."
                       last_sent_at := some env.now }
    newLogs := [{ id := logId, request_id := r.id
                  profile_name := dl.profile_name, brand := dl.brand
                  profile_url := r.profile_url, status := "failed"
                  message := "Duplicate found. Previously processed request ID " ++
                    toString dl.request_id
                  response_json := "", sent_at := env.now }]
    raised := none, assistantCalled := false, webhookCalled := false }

/-- The try/except body of `action_send_now` for one record: status is set
to `sending` and committed, the assistant client is called, its reply
parsed, the webhook optionally notified and a log row written; any client
exception flips the record to `failed`, writes a failure log row and
re-raises a `UserError`. -/
def sendOneMain (cfg : Config) (env : SendEnv)
    (r : ProfileRequest) (logId : Nat) : SendOutcome :=
    match env.clientResult with
    | .error e =>
      { record := { r with status := "failed", last_response_status := e
                           last_sent_at := some env.now }
        newLogs := [{ id := logId, request_id := r.id
                      profile_name := "", brand := ""
                      profile_url := r.profile_url, status := "failed"
                      message := e, response_json := "", sent_at := env.now }]
        raised := some ("Failed to contact the Assistant.\nTechnical details: " ++ e)
        assistantCalled := true, webhookCalled := false }
    | .ok responseText =>
      let parsed := (parseReply responseText).1
      let parseErr := (parseReply responseText).2
      match parsed with
      | some (.obj kvs) =>
        let profileName := (pyOr (jget kvs "display_name")
          (pyOr (jget kvs "profile_name") (.str ""))).asStr
        let statusMsg0 := (pyOr (jget kvs "status") (.str "OK")).asStr
        let callWebhook := cfg.webhook_url ≠ ""
        let statusMsg := if callWebhook then statusMsg0 ++ webhookSuffix env.webhook
          else statusMsg0
        let logMessage := statusMsg ++
          (match parseErr with
            | some pe => " | JSON parse error: " ++ pe
            | none => "")
        let brandName := (pyOr (jget kvs "brand") (.str "")).asStr
        let extractedUrl := (pyOr (jget kvs "profile_url") (.str "")).asStr
        let finalUrl := if r.profile_url ≠ "" then r.profile_url else extractedUrl
        { record := { r with last_profile_name := profileName
                             last_response_status := statusMsg
                             last_sent_at := some env.now, status := "success" }
          newLogs := [{ id := logId, request_id := r.id
                        profile_name := profileName, brand := brandName
                        profile_url := finalUrl, status := "success"
                        message := logMessage, response_json := responseText
                        sent_at := env.now }]
          raised := none, assistantCalled := true, webhookCalled := callWebhook }
      | _ =>
        -- parsed_json is None or not a dict: fields default, webhook skipped.
        let logMessage := "OK" ++
          (match parseErr with
            | some pe => " | JSON parse error: " ++ pe
            | none => "")
        { record := { r with last_profile_name := ""
                             last_response_status := "OK"
                             last_sent_at := some env.now, status := "success" }
          newLogs := [{ id := logId, request_id := r.id
                        profile_name := "", brand := ""
                        profile_url := r.profile_url, status := "success"
                        message := logMessage, response_json := responseText
                        sent_at := env.now }]
          raised := none, assistantCalled := true, webhookCalled := false }

/-- One iteration of the `action_send_now` loop for record `r`, given the
already-persisted logs (searched for duplicates) and a fresh id for any log
row it creates: configuration check, duplicate check, then the try/except
body `sendOneMain`. -/
def sendOne (cfg : Config) (logs : List ProfileLog) (env : SendEnv)
    (r : ProfileRequest) (logId : Nat) : SendOutcome :=
  if cfg.api_key = "" ∨ cfg.assistant_id = "" then
    { record := r, newLogs := [], assistantCalled := false, webhookCalled := false
      raised := some ("OpenAI Assistant is not configured.\n" ++
        "Please set API Key and Assistant ID in Settings > General Settings > AI Assistant Connector.") }
  else if r.profile_url ≠ "" then
    match searchDuplicate logs r.profile_url with
    | some dl => dupOutcome env r logId dl
    | none => sendOneMain cfg env r logId
  else
    sendOneMain cfg env r logId

/-- Result of the batch loop of `action_send_now` over a selection. -/
structure BatchResult where
  records : List ProfileRequest
  newLogs : List ProfileLog
  raised : Option String

/-- The `for record in self` loop: records are processed in order, each to
completion; a raised exception propagates out of the loop, so the remaining
records are never attempted.  Logs created by earlier iterations are
visible to later duplicate searches. -/
def sendBatch (cfg : Config) :
    List (ProfileRequest × SendEnv) → List ProfileLog → Nat → BatchResult
  | [], _, _ => { records := [], newLogs := [], raised := none }
  | (r, env) :: rest, logs, nextId =>
    let o := sendOne cfg logs env r nextId
    match o.raised with
    | some e => { records := [o.record], newLogs := o.newLogs, raised := some e }
    | none =>
      let b := sendBatch cfg rest (logs ++ o.newLogs) (nextId + o.newLogs.length)
      { records := o.record :: b.records, newLogs := o.newLogs ++ b.newLogs
        raised := b.raised }

/-!  Settings model (`res_config_settings.py`). -/

/-- The transient settings form values. -/
structure Settings where
  assistant_openai_api_key : String
  assistant_id : String
  assistant_model : String
  assistant_api_base : String
deriving DecidableEq

/-- The persisted `ir.config_parameter` values of this add-on. -/
structure ParamStore where
  api_key : String
  assistant_id : String
  model : String
  api_base : String
deriving DecidableEq

/-- Model of `set_values`: write the four parameters, with the source's
fallback defaults for unset form fields. -/
def setValues (s : Settings) (_store : ParamStore) : ParamStore :=
  { api_key := s.assistant_openai_api_key
    assistant_id := s.assistant_id
    model := if s.assistant_model ≠ "" then s.assistant_model else "gpt-5.1"
    api_base := if s.assistant_api_base ≠ "" then s.assistant_api_base
      else "https://api.openai.com/v1" }

/-- Outcome of the single `GET {base}/assistants/{assistant_id}` issued by
the connection test: an HTTP response (status code, the `name` and `model`
fields of its JSON body, raw body text), a timeout exception, or another
request exception. -/
inductive ConnResp where
  | http : Nat → Option String → Option String → String → ConnResp
  | timeoutExc : ConnResp
  | requestExc : String → ConnResp
deriving DecidableEq

/-- User-facing result of `action_test_connection`.  All constructors other
than `success` model a raised `UserError`; `missingKey`/`missingId` are the
pre-validation raises that happen before the GET. -/
inductive TestResult where
  | success : String → String → TestResult
  | unauthorized : TestResult
  | notFound : TestResult
  | otherHttp : Nat → String → TestResult
  | timeout : TestResult
  | connError : String → TestResult
  | missingKey : TestResult
  | missingId : TestResult
deriving DecidableEq

/-- Model of `action_test_connection`: validate the form fields, classify
the metadata GET, and persist the entered values (via `set_values`) only in
the success branch. -/
def actionTestConnection (s : Settings) (store : ParamStore) (resp : ConnResp) :
    TestResult × ParamStore :=
  if s.assistant_openai_api_key = "" then (.missingKey, store)
  else if s.assistant_id = "" then (.missingId, store)
  else
    match resp with
    | .http code name model _body =>
      if code = 200 then
        (.success (name.getD "Unknown") (model.getD "Unknown"), setValues s store)
      else if code = 401 then (.unauthorized, store)
      else if code = 404 then (.notFound, store)
      else (.otherHttp code _body, store)
    | .timeoutExc => (.timeout, store)
    | .requestExc m => (.connError m, store)

/-- The five user-facing outcome classes named by the specification. -/
inductive ConnClass where
  | classSuccess : ConnClass
  | classUnauthorized : ConnClass
  | classNotFound : ConnClass
  | classTimeout : ConnClass
  | classOtherFailure : ConnClass
deriving DecidableEq

/-- Class of a test result (`none` for the pre-validation raises, which
precede the GET). -/
def TestResult.classOf : TestResult → Option ConnClass
  | .success _ _ => some .classSuccess
  | .unauthorized => some .classUnauthorized
  | .notFound => some .classNotFound
  | .otherHttp _ _ => some .classOtherFailure
  | .timeout => some .classTimeout
  | .connError _ => some .classOtherFailure
  | .missingKey => none
  | .missingId => none

/-- Modelled from the spec: the classification the specification assigns to
each outcome of the metadata GET — success, unauthorized (bad key),
not-found (bad assistant id), timeout, or other network failure. -/
def specClassOf : ConnResp → ConnClass
  | .http code _ _ _ =>
    if code = 200 then .classSuccess
    else if code = 401 then .classUnauthorized
    else if code = 404 then .classNotFound
    else .classOtherFailure
  | .timeoutExc => .classTimeout
  | .requestExc _ => .classOtherFailure

/-!  Helper lemmas. -/

theorem strAppend_assoc (a b c : String) : a ++ b ++ c = a ++ (b ++ c) := by
  apply String.ext
  simp [String.data_append]

/-- Substring containment, used to state that a log message contains a
given annotation. -/
def strContains (hay needle : String) : Prop :=
  ∃ a b, hay = a ++ (needle ++ b)

theorem pickLatest_mem : ∀ {ls : List ProfileLog} {m : ProfileLog},
    pickLatest ls = some m → m ∈ ls := by
  intro ls
  induction ls with
  | nil => intro m h; simp [pickLatest] at h
  | cons l tl ih =>
    intro m h
    simp only [pickLatest] at h
    cases hp : pickLatest tl with
    | none => rw [hp] at h; simp at h; simp [h]
    | some m2 =>
      rw [hp] at h
      simp at h
      by_cases hlt : m2.id < l.id
      · rw [if_pos hlt] at h; simp [h]
      · rw [if_neg hlt] at h
        right
        rw [← h]
        exact ih hp

theorem pickLatest_isSome {ls : List ProfileLog} (h : ls ≠ []) :
    (pickLatest ls).isSome := by
  cases ls with
  | nil => exact absurd rfl h
  | cons l tl =>
    simp only [pickLatest]
    cases pickLatest tl <;> simp

theorem searchDuplicate_isSome {logs : List ProfileLog} {u : String}
    (h : ∃ l ∈ logs, l.profile_url = u ∧ l.status = "success") :
    (searchDuplicate logs u).isSome := by
  obtain ⟨l, hl, h1, h2⟩ := h
  apply pickLatest_isSome
  intro hemp
  have hmem : l ∈ logs.filter (fun l => l.profile_url == u && l.status == "success") :=
    List.mem_filter.mpr ⟨hl, by simp [h1, h2]⟩
  rw [hemp] at hmem
  exact absurd hmem (List.not_mem_nil l)

theorem searchDuplicate_mem {logs : List ProfileLog} {u : String} {dl : ProfileLog}
    (h : searchDuplicate logs u = some dl) :
    dl ∈ logs ∧ dl.profile_url = u ∧ dl.status = "success" := by
  have hm := pickLatest_mem h
  have hf := List.mem_filter.mp hm
  have hp := hf.2
  simp only [Bool.and_eq_true, beq_iff_eq] at hp
  exact ⟨hf.1, hp.1, hp.2⟩

/-- With the configuration present and no successful prior log matching the
URL, `action_send_now` reaches its try/except body. -/
theorem sendOne_eq_main (cfg : Config) (logs : List ProfileLog) (env : SendEnv)
    (r : ProfileRequest) (logId : Nat)
    (hkey : cfg.api_key ≠ "") (hid : cfg.assistant_id ≠ "")
    (hnd : r.profile_url = "" ∨ searchDuplicate logs r.profile_url = none) :
    sendOne cfg logs env r logId = sendOneMain cfg env r logId := by
  have hcfg : ¬(cfg.api_key = "" ∨ cfg.assistant_id = "") := by
    intro h
    rcases h with h | h
    · exact hkey h
    · exact hid h
  rcases hnd with hu | hs
  · simp [sendOne, hcfg, hu]
  · by_cases hu : r.profile_url = ""
    · simp [sendOne, hcfg, hu]
    · simp [sendOne, hcfg, hu, hs]

/-- The except-branch of `action_send_now`: on a client exception the
record flips to `failed`, a failure log row is written with empty profile
name and the request URL passed through, and a `UserError` is re-raised. -/
theorem sendOneMain_error (cfg : Config) (env : SendEnv) (r : ProfileRequest)
    (logId : Nat) (e : String) (hclient : env.clientResult = .error e) :
    sendOneMain cfg env r logId =
      { record := { r with status := "failed", last_response_status := e
                           last_sent_at := some env.now }
        newLogs := [⟨logId, r.id, "", "", r.profile_url, "failed", e, "", env.now⟩]
        raised := some ("Failed to contact the Assistant.\nTechnical details: " ++ e)
        assistantCalled := true
        webhookCalled := false } := by
  simp [sendOneMain, hclient]

/-!  Claims. -/

/-- Claim C6: every persisted `ProfileRequest` satisfies the input
invariant — at least one of profile URL and image is present and at most 3
images are attached (the data model holds a single image field, so the
count is at most 1); a submission with neither URL nor image is rejected by
the constraint, which runs at persist time, before any network call. -/
theorem c6_input_invariant (r : ProfileRequest) :
    (checkUrlOrImage r = .ok () →
      (r.profile_url ≠ "" ∨ r.profile_image.isSome) ∧ imageCount r ≤ 3) ∧
    (r.profile_url = "" ∧ r.profile_image = none →
      checkUrlOrImage r = .error "Please provide either a Profile URL or a Profile Image.") := by
  constructor
  · intro hok
    have hcond : ¬(r.profile_url = "" ∧ r.profile_image = none) := by
      intro hc
      simp [checkUrlOrImage, hc] at hok
    refine ⟨?_, ?_⟩
    · by_cases hu : r.profile_url = ""
      · cases hi : r.profile_image with
        | none => exact absurd ⟨hu, hi⟩ hcond
        | some img => right; simp [hi]
      · left; exact hu
    · simp only [imageCount]
      split <;> omega
  · intro h
    simp [checkUrlOrImage, h.1, h.2]

/-- A draft request with neither URL nor image. -/
def c6ReqEmpty : ProfileRequest := ⟨1, "", none, "draft", "", "", none⟩

/-- A draft request with a URL and no image. -/
def c6ReqUrl : ProfileRequest := ⟨2, "https://x.com/p", none, "draft", "", "", none⟩

/-- Witness for C6 at two concrete records: one with neither URL nor image
(rejected) and one with a URL (accepted, invariant holds). -/
theorem c6_input_invariant_witness :
    checkUrlOrImage c6ReqEmpty =
      .error "Please provide either a Profile URL or a Profile Image." ∧
    ((c6ReqUrl.profile_url ≠ "" ∨ c6ReqUrl.profile_image.isSome) ∧
      imageCount c6ReqUrl ≤ 3) :=
  ⟨(c6_input_invariant c6ReqEmpty).2 ⟨rfl, rfl⟩, (c6_input_invariant c6ReqUrl).1 rfl⟩

/-- Poll oracle answering `in_progress`, `in_progress`, `completed`. -/
def c2Polls : Nat → PollResp :=
  fun k => if k < 2 then .ok "in_progress" else .ok "completed"

/-- Fetched thread messages holding one assistant text reply. -/
def c2Msgs : List Msg :=
  [{ role := "assistant", content := [{ type := "text", value := "hello" }] }]

/-- Claim C2 counterexample: on the poll sequence `in_progress,
in_progress, completed` the client does return the message-fetch result,
but it sleeps three times (9 time units), not twice (6 time units): the
source sleeps before every status GET, including the first and the one
that observes `completed`. -/
theorem c2_counterexample :
    (callOpenaiAssistant (.ok ()) c2Polls (.ok c2Msgs)).result =
      .ok (firstAssistantText c2Msgs) ∧
    ¬((callOpenaiAssistant (.ok ()) c2Polls (.ok c2Msgs)).sleeps = 2) ∧
    ¬(3 * (callOpenaiAssistant (.ok ()) c2Polls (.ok c2Msgs)).sleeps = 6) :=
  ⟨rfl, by decide, by decide⟩

/-- Claim C2 amended: given a poll sequence returning `in_progress,
in_progress, completed`, the client sleeps exactly three times (9 time
units total) before returning the message-fetch result. -/
theorem c2_amended_three_sleeps :
    (callOpenaiAssistant (.ok ()) c2Polls (.ok c2Msgs)).result =
      .ok (firstAssistantText c2Msgs) ∧
    (callOpenaiAssistant (.ok ()) c2Polls (.ok c2Msgs)).sleeps = 3 ∧
    3 * (callOpenaiAssistant (.ok ()) c2Polls (.ok c2Msgs)).sleeps = 9 :=
  ⟨rfl, rfl, rfl⟩

/-- Claim C9: the connection test classifies the metadata GET into the five
user-facing classes the specification names (success with assistant
name/model, unauthorized, not-found, timeout, other network failure), and
persists the entered settings exactly in the success class — on every
non-success classification the stored settings are unchanged. -/
theorem c9_test_connection (s : Settings) (store : ParamStore) (resp : ConnResp)
    (hkey : s.assistant_openai_api_key ≠ "") (hid : s.assistant_id ≠ "") :
    ((actionTestConnection s store resp).1).classOf = some (specClassOf resp) ∧
    (specClassOf resp = .classSuccess →
      (actionTestConnection s store resp).2 = setValues s store) ∧
    (specClassOf resp ≠ .classSuccess →
      (actionTestConnection s store resp).2 = store) ∧
    (∀ code name model body, resp = .http code name model body → code = 200 →
      (actionTestConnection s store resp).1 =
        .success (name.getD "Unknown") (model.getD "Unknown")) := by
  have h4 : ∀ code name model body, resp = .http code name model body → code = 200 →
      (actionTestConnection s store resp).1 =
        .success (name.getD "Unknown") (model.getD "Unknown") := by
    intro code name model body heq h200
    subst heq
    subst h200
    simp [actionTestConnection, hkey, hid]
  refine ⟨?_, ?_, ?_, h4⟩ <;> clear h4
  all_goals
    cases resp with
    | http code name model body =>
      by_cases h200 : code = 200
      · subst h200
        simp [actionTestConnection, hkey, hid, specClassOf, TestResult.classOf]
      · by_cases h401 : code = 401
        · subst h401
          simp [actionTestConnection, hkey, hid, specClassOf, TestResult.classOf]
        · by_cases h404 : code = 404
          · subst h404
            simp [actionTestConnection, hkey, hid, specClassOf, TestResult.classOf]
          · simp [actionTestConnection, hkey, hid, specClassOf, TestResult.classOf,
              h200, h401, h404]
    | timeoutExc =>
      simp [actionTestConnection, hkey, hid, specClassOf, TestResult.classOf]
    | requestExc m =>
      simp [actionTestConnection, hkey, hid, specClassOf, TestResult.classOf]

/-- Witness for C9 at concrete inputs: a 200 response persists the entered
values, and a 401 response leaves the store unchanged. -/
theorem c9_test_connection_witness :
    ((actionTestConnection ⟨"key", "asst", "gpt-5.1", ""⟩ ⟨"", "", "", ""⟩
        (.http 200 (some "Bot") (some "m1") "")).1).classOf =
      some (specClassOf (.http 200 (some "Bot") (some "m1") "")) ∧
    (actionTestConnection ⟨"key", "asst", "gpt-5.1", ""⟩ ⟨"", "", "", ""⟩
        (.http 200 (some "Bot") (some "m1") "")).2 =
      setValues ⟨"key", "asst", "gpt-5.1", ""⟩ ⟨"", "", "", ""⟩ ∧
    (actionTestConnection ⟨"key", "asst", "gpt-5.1", ""⟩ ⟨"", "", "", ""⟩
        (.http 401 none none "denied")).2 = ⟨"", "", "", ""⟩ :=
  ⟨(c9_test_connection _ _ _ (by decide) (by decide)).1,
    (c9_test_connection _ _ _ (by decide) (by decide)).2.1 rfl,
    (c9_test_connection _ _ _ (by decide) (by decide)).2.2.1 (by decide)⟩

/-- Claim C7: when the assistant client raises on a record, `action_send_now`
marks that record `failed`, stores the error text as the last response
status, writes one failure log row with empty profile name and the
request's own URL passed through, and re-raises the error: the batch result
holds exactly that one processed record, so the remaining records of the
batch are never attempted. -/
theorem c7_exception_aborts_batch (cfg : Config) (logs : List ProfileLog)
    (rest : List (ProfileRequest × SendEnv)) (nextId : Nat)
    (r : ProfileRequest) (env : SendEnv) (e : String)
    (hkey : cfg.api_key ≠ "") (hid : cfg.assistant_id ≠ "")
    (hnd : r.profile_url = "" ∨ searchDuplicate logs r.profile_url = none)
    (hclient : env.clientResult = .error e) :
    sendBatch cfg ((r, env) :: rest) logs nextId =
      { records := [{ r with status := "failed"
                             last_response_status := e
                             last_sent_at := some env.now }]
        newLogs := [⟨nextId, r.id, "", "", r.profile_url, "failed", e, "", env.now⟩]
        raised := some ("Failed to contact the Assistant.\nTechnical details: " ++ e) } := by
  have h1 := sendOne_eq_main cfg logs env r nextId hkey hid hnd
  have h2 := sendOneMain_error cfg env r nextId e hclient
  simp [sendBatch, h1, h2]

/-- Witness for C7: a concrete two-record batch whose first record's client
call raises aborts after the first record. -/
theorem c7_exception_aborts_batch_witness :
    sendBatch ⟨"k", "a", "https://api.openai.com/v1", ""⟩
        [(⟨1, "https://x.com/p", none, "draft", "", "", none⟩,
            ⟨.error "boom", .resp 200, 7⟩),
          (⟨2, "https://x.com/q", none, "draft", "", "", none⟩,
            ⟨.ok "ignored", .resp 200, 8⟩)] [] 10 =
      { records := [⟨1, "https://x.com/p", none, "failed", "", "boom", some 7⟩]
        newLogs := [⟨10, 1, "", "", "https://x.com/p", "failed", "boom", "", 7⟩]
        raised := some ("Failed to contact the Assistant.\nTechnical details: " ++ "boom") } :=
  c7_exception_aborts_batch ⟨"k", "a", "https://api.openai.com/v1", ""⟩ []
    [(⟨2, "https://x.com/q", none, "draft", "", "", none⟩, ⟨.ok "ignored", .resp 200, 8⟩)]
    10 ⟨1, "https://x.com/p", none, "draft", "", "", none⟩ ⟨.error "boom", .resp 200, 7⟩
    "boom" (by decide) (by decide) (Or.inr rfl) rfl

/-- Terminal run states of the poll loop (both the success and the failure
terminals). -/
def terminalRun (s : String) : Bool :=
  s == "completed" || s == "requires_action" || s == "failed" ||
    s == "cancelled" || s == "expired"

/-- A poll response that keeps the loop going: an HTTP-level error or a
terminal state ends it. -/
def nonTerminalResp : PollResp → Bool
  | .httpErr _ _ => false
  | .ok s => !(terminalRun s)

theorem pollAux_timeout_of_nonTerminal (polls : Nat → PollResp)
    (h : ∀ i, i < 20 → nonTerminalResp (polls i) = true) :
    ∀ fuel k, k + fuel = 20 → 0 < fuel → pollAux polls k fuel = .timeout 20 60 := by
  intro fuel
  induction fuel with
  | zero =>
    intro k hk h0
    exact absurd h0 (lt_irrefl 0)
  | succ f ih =>
    intro k hk _
    have hklt : k < 20 := by omega
    have hnt := h k hklt
    cases hp : polls k with
    | httpErr c b =>
      rw [hp] at hnt
      simp [nonTerminalResp] at hnt
    | ok s =>
      rw [hp] at hnt
      simp only [nonTerminalResp, terminalRun, Bool.not_eq_true', Bool.or_eq_false_iff,
        beq_eq_false_iff_ne, ne_eq] at hnt
      obtain ⟨⟨⟨⟨h1, h2⟩, h3⟩, h4⟩, h5⟩ := hnt
      simp only [pollAux, hp]
      rw [if_neg (by tauto), if_neg (by tauto)]
      by_cases hk19 : k = 19
      · subst hk19
        rw [if_pos (by omega)]
      · rw [if_neg (by omega)]
        exact ih (k + 1) (by omega) (by omega)

/-- A poll sequence that stays non-terminal through the first 20 status
GETs drives the loop into the 60-second timeout. -/
theorem pollRun_timeout (polls : Nat → PollResp)
    (h : ∀ i, i < 20 → nonTerminalResp (polls i) = true) :
    pollRun polls = .timeout 20 60 :=
  pollAux_timeout_of_nonTerminal polls h 20 0 rfl (by omega)

/-- Claim C3: if the run status never reaches a terminal state during the
first 60 time units (all 20 status GETs return a non-terminal state), the
assistant call fails with the timeout error; `action_send_now` then flips
the record to `failed` and creates exactly one log row — a failure row —
so no success row is created for the attempt. -/
theorem c3_timeout_creates_failure_log (cfg : Config) (logs : List ProfileLog)
    (r : ProfileRequest) (logId : Nat) (polls : Nat → PollResp)
    (fetchResp : Except (Nat × String) (List Msg)) (w : WebhookResult) (now : Nat)
    (hkey : cfg.api_key ≠ "") (hid : cfg.assistant_id ≠ "")
    (hnd : r.profile_url = "" ∨ searchDuplicate logs r.profile_url = none)
    (hpoll : ∀ i, i < 20 → nonTerminalResp (polls i) = true) :
    (callOpenaiAssistant (.ok ()) polls fetchResp).result =
      .error "Assistant run timeout after 60 seconds" ∧
    (sendOne cfg logs ⟨(callOpenaiAssistant (.ok ()) polls fetchResp).result, w, now⟩
        r logId).record.status = "failed" ∧
    (sendOne cfg logs ⟨(callOpenaiAssistant (.ok ()) polls fetchResp).result, w, now⟩
        r logId).newLogs =
      [⟨logId, r.id, "", "", r.profile_url, "failed",
        "Assistant run timeout after 60 seconds", "", now⟩] ∧
    ∀ l ∈ (sendOne cfg logs ⟨(callOpenaiAssistant (.ok ()) polls fetchResp).result, w, now⟩
        r logId).newLogs, l.status ≠ "success" := by
  have hto := pollRun_timeout polls hpoll
  have hres : (callOpenaiAssistant (.ok ()) polls fetchResp).result =
      .error "Assistant run timeout after 60 seconds" := by
    simp only [callOpenaiAssistant, hto]
    rfl
  have hmain := sendOne_eq_main cfg logs
    ⟨(callOpenaiAssistant (.ok ()) polls fetchResp).result, w, now⟩ r logId hkey hid hnd
  have herr := sendOneMain_error cfg
    ⟨(callOpenaiAssistant (.ok ()) polls fetchResp).result, w, now⟩ r logId
    "Assistant run timeout after 60 seconds" hres
  rw [hmain, herr]
  refine ⟨hres, rfl, rfl, ?_⟩
  intro l hl
  simp only [List.mem_singleton] at hl
  subst hl
  show ("failed" : String) ≠ "success"
  decide

/-- Witness for C3: a concrete record and a poll oracle stuck on
`in_progress`. -/
theorem c3_timeout_creates_failure_log_witness :
    (callOpenaiAssistant (.ok ()) (fun _ => .ok "in_progress") (.ok c2Msgs)).result =
      .error "Assistant run timeout after 60 seconds" ∧
    (sendOne ⟨"k", "a", "https://api.openai.com/v1", ""⟩ []
        ⟨(callOpenaiAssistant (.ok ()) (fun _ => .ok "in_progress") (.ok c2Msgs)).result,
          .resp 200, 7⟩
        ⟨1, "https://x.com/p", none, "draft", "", "", none⟩ 3).record.status = "failed" ∧
    (sendOne ⟨"k", "a", "https://api.openai.com/v1", ""⟩ []
        ⟨(callOpenaiAssistant (.ok ()) (fun _ => .ok "in_progress") (.ok c2Msgs)).result,
          .resp 200, 7⟩
        ⟨1, "https://x.com/p", none, "draft", "", "", none⟩ 3).newLogs =
      [⟨3, 1, "", "", "https://x.com/p", "failed",
        "Assistant run timeout after 60 seconds", "", 7⟩] ∧
    ∀ l ∈ (sendOne ⟨"k", "a", "https://api.openai.com/v1", ""⟩ []
        ⟨(callOpenaiAssistant (.ok ()) (fun _ => .ok "in_progress") (.ok c2Msgs)).result,
          .resp 200, 7⟩
        ⟨1, "https://x.com/p", none, "draft", "", "", none⟩ 3).newLogs,
      l.status ≠ "success" :=
  c3_timeout_creates_failure_log ⟨"k", "a", "https://api.openai.com/v1", ""⟩ []
    ⟨1, "https://x.com/p", none, "draft", "", "", none⟩ 3
    (fun _ => .ok "in_progress") (.ok c2Msgs) (.resp 200) 7
    (by decide) (by decide) (Or.inr rfl) (by decide)

/-- Claim C1: a request whose URL matches the URL of a prior successful log
row is short-circuited by `action_send_now`: the assistant client is not
called, the request's status becomes `failed`, nothing is raised (the loop
moves on), and one failure log row is created whose message cites the
identifier of the request owning the matching prior successful log. -/
theorem c1_duplicate_short_circuit (cfg : Config) (logs : List ProfileLog)
    (env : SendEnv) (r : ProfileRequest) (logId : Nat)
    (hkey : cfg.api_key ≠ "") (hid : cfg.assistant_id ≠ "")
    (hurl : r.profile_url ≠ "")
    (hdup : ∃ l ∈ logs, l.profile_url = r.profile_url ∧ l.status = "success") :
    ∃ dl, searchDuplicate logs r.profile_url = some dl ∧
      dl ∈ logs ∧ dl.profile_url = r.profile_url ∧ dl.status = "success" ∧
      (sendOne cfg logs env r logId).assistantCalled = false ∧
      (sendOne cfg logs env r logId).raised = none ∧
      (sendOne cfg logs env r logId).record.status = "failed" ∧
      (sendOne cfg logs env r logId).newLogs =
        [⟨logId, r.id, dl.profile_name, dl.brand, r.profile_url, "failed",
          "Duplicate found. Previously processed request ID " ++ toString dl.request_id,
          "", env.now⟩] := by
  have hsome := searchDuplicate_isSome hdup
  obtain ⟨dl, hdl⟩ := Option.isSome_iff_exists.mp hsome
  obtain ⟨hmem, hdurl, hdstat⟩ := searchDuplicate_mem hdl
  have hcfg : ¬(cfg.api_key = "" ∨ cfg.assistant_id = "") := by
    intro h
    rcases h with h | h
    · exact hkey h
    · exact hid h
  have hsend : sendOne cfg logs env r logId = dupOutcome env r logId dl := by
    simp [sendOne, hcfg, hurl, hdl]
  refine ⟨dl, hdl, hmem, hdurl, hdstat, ?_, ?_, ?_, ?_⟩ <;> rw [hsend] <;> rfl

/-- A prior successful log row used by the C1 witness. -/
def c1PriorLog : ProfileLog :=
  ⟨5, 9, "Acme", "BrandX", "https://x.com/p", "success", "OK", "raw", 3⟩

/-- Witness for C1: a concrete resubmission of an already-processed URL. -/
theorem c1_duplicate_short_circuit_witness :
    ∃ dl, searchDuplicate [c1PriorLog] "https://x.com/p" = some dl ∧
      dl ∈ [c1PriorLog] ∧ dl.profile_url = "https://x.com/p" ∧ dl.status = "success" ∧
      (sendOne ⟨"k", "a", "https://api.openai.com/v1", ""⟩ [c1PriorLog]
        ⟨.ok "unused", .resp 200, 7⟩
        ⟨1, "https://x.com/p", none, "draft", "", "", none⟩ 6).assistantCalled = false ∧
      (sendOne ⟨"k", "a", "https://api.openai.com/v1", ""⟩ [c1PriorLog]
        ⟨.ok "unused", .resp 200, 7⟩
        ⟨1, "https://x.com/p", none, "draft", "", "", none⟩ 6).raised = none ∧
      (sendOne ⟨"k", "a", "https://api.openai.com/v1", ""⟩ [c1PriorLog]
        ⟨.ok "unused", .resp 200, 7⟩
        ⟨1, "https://x.com/p", none, "draft", "", "", none⟩ 6).record.status = "failed" ∧
      (sendOne ⟨"k", "a", "https://api.openai.com/v1", ""⟩ [c1PriorLog]
        ⟨.ok "unused", .resp 200, 7⟩
        ⟨1, "https://x.com/p", none, "draft", "", "", none⟩ 6).newLogs =
        [⟨6, 1, dl.profile_name, dl.brand, "https://x.com/p", "failed",
          "Duplicate found. Previously processed request ID " ++ toString dl.request_id,
          "", 7⟩] :=
  c1_duplicate_short_circuit ⟨"k", "a", "https://api.openai.com/v1", ""⟩ [c1PriorLog]
    ⟨.ok "unused", .resp 200, 7⟩ ⟨1, "https://x.com/p", none, "draft", "", "", none⟩ 6
    (by decide) (by decide) (by decide) ⟨c1PriorLog, by decide, rfl, rfl⟩

/-- The reply that is exactly the JSON object of the C4 example. -/
def c4PureReply : String := "\x7b\"display_name\":\"Acme\",\"status\":\"ok\"\x7d"

/-- The reply embedding the same object in surrounding prose. -/
def c4EmbeddedReply : String := "Here you go: " ++ c4PureReply ++ " thanks"

/-- Configuration for the C4 scenario (no webhook configured). -/
def c4Cfg : Config := ⟨"k", "a", "https://api.openai.com/v1", ""⟩

/-- The request of the C4 scenario. -/
def c4Req : ProfileRequest := ⟨1, "https://x.com/p", none, "draft", "", "", none⟩

/-- The environment of the C4 scenario for a given assistant reply. -/
def c4Env (reply : String) : SendEnv := ⟨.ok reply, .resp 200, 5⟩

/-- Claim C4: the parser first attempts a direct JSON parse; on failure it
extracts the first outermost greedy brace span and parses it.  For a reply
that is exactly the object and for one that embeds it in prose, the
extracted fields coincide: the log's profile name is `Acme`, the status
message is `ok`, and no parse error is recorded. -/
theorem c4_parser_fallback_equivalence :
    jsonLoads c4PureReply =
      some (.obj [("display_name", .str "Acme"), ("status", .str "ok")]) ∧
    jsonLoads c4EmbeddedReply = none ∧
    extractBraceSpan c4EmbeddedReply = some c4PureReply ∧
    parseReply c4EmbeddedReply = parseReply c4PureReply ∧
    (parseReply c4PureReply).2 = none ∧
    ((sendOne c4Cfg [] (c4Env c4PureReply) c4Req 1).record.last_profile_name = "Acme" ∧
      (sendOne c4Cfg [] (c4Env c4PureReply) c4Req 1).record.last_response_status = "ok" ∧
      (sendOne c4Cfg [] (c4Env c4PureReply) c4Req 1).record.status = "success" ∧
      (sendOne c4Cfg [] (c4Env c4PureReply) c4Req 1).newLogs.map
        (fun l => (l.profile_name, l.message, l.status)) = [("Acme", "ok", "success")]) ∧
    ((sendOne c4Cfg [] (c4Env c4EmbeddedReply) c4Req 1).record.last_profile_name = "Acme" ∧
      (sendOne c4Cfg [] (c4Env c4EmbeddedReply) c4Req 1).record.last_response_status = "ok" ∧
      (sendOne c4Cfg [] (c4Env c4EmbeddedReply) c4Req 1).record.status = "success" ∧
      (sendOne c4Cfg [] (c4Env c4EmbeddedReply) c4Req 1).newLogs.map
        (fun l => (l.profile_name, l.message, l.status)) = [("Acme", "ok", "success")]) :=
  ⟨rfl, rfl, rfl, rfl, rfl, ⟨rfl, rfl, rfl, rfl⟩, ⟨rfl, rfl, rfl, rfl⟩⟩

/-- A parse error is recorded exactly when no JSON value was obtained. -/
theorem parseReply_fst_none {t e : String}
    (h : (parseReply t).2 = some e) : (parseReply t).1 = none := by
  cases hj : jsonLoads t with
  | some j => simp [parseReply, hj] at h
  | none =>
    cases hs : extractBraceSpan t with
    | none => simp [parseReply, hj, hs]
    | some span =>
      cases hj2 : jsonLoads span with
      | some j => simp [parseReply, hj, hs, hj2] at h
      | none => simp [parseReply, hj, hs, hj2]

/-- Splitting of the parse-error log message into its annotated parts. -/
theorem parseErrMessage_eq (e : String) :
    "OK" ++ (" | JSON parse error: " ++ e) = "OK | JSON parse error: " ++ e := by
  rw [← strAppend_assoc]
  congr 1

/-- The parse-error log message contains the parse-error annotation. -/
theorem parseErrMessage_contains (e : String) :
    strContains ("OK | JSON parse error: " ++ e) "JSON parse error" := by
  refine ⟨"OK | ", ": " ++ e, ?_⟩
  rw [show ("OK | " : String) ++ ("JSON parse error" ++ (": " ++ e)) =
    ("OK | " ++ "JSON parse error" ++ ": ") ++ e by rw [strAppend_assoc, strAppend_assoc]]
  congr 1

/-- Claim C5: when no JSON object can be parsed from the reply (a parse
error is recorded), the send attempt still ends with request status
`success`, nothing is raised, the stored profile name defaults to empty, and
the single (success) log row's message carries the parse-error annotation:
parse failure is never escalated to a send failure. -/
theorem c5_parse_failure_stays_success (cfg : Config) (logs : List ProfileLog)
    (env : SendEnv) (r : ProfileRequest) (logId : Nat) (reply e : String)
    (hkey : cfg.api_key ≠ "") (hid : cfg.assistant_id ≠ "")
    (hnd : r.profile_url = "" ∨ searchDuplicate logs r.profile_url = none)
    (hclient : env.clientResult = .ok reply)
    (herr : (parseReply reply).2 = some e) :
    (sendOne cfg logs env r logId).raised = none ∧
    (sendOne cfg logs env r logId).record.status = "success" ∧
    (sendOne cfg logs env r logId).record.last_profile_name = "" ∧
    (sendOne cfg logs env r logId).newLogs =
      [⟨logId, r.id, "", "", r.profile_url, "success",
        "OK | JSON parse error: " ++ e, reply, env.now⟩] ∧
    ∀ l ∈ (sendOne cfg logs env r logId).newLogs,
      strContains l.message "JSON parse error" := by
  have hp1 := parseReply_fst_none herr
  have hout : sendOne cfg logs env r logId =
      { record := { r with last_profile_name := ""
                           last_response_status := "OK"
                           last_sent_at := some env.now
                           status := "success" }
        newLogs := [⟨logId, r.id, "", "", r.profile_url, "success",
          "OK | JSON parse error: " ++ e, reply, env.now⟩]
        raised := none, assistantCalled := true, webhookCalled := false } := by
    rw [sendOne_eq_main cfg logs env r logId hkey hid hnd]
    simp [sendOneMain, hclient, hp1, herr, parseErrMessage_eq]
  rw [hout]
  refine ⟨rfl, rfl, rfl, rfl, ?_⟩
  intro l hl
  simp only [List.mem_singleton] at hl
  subst hl
  exact parseErrMessage_contains e

/-- Witness for C5: a reply with no brace span at all. -/
theorem c5_parse_failure_stays_success_witness :
    (sendOne c4Cfg [] ⟨.ok "no json here", .resp 200, 7⟩ c4Req 2).raised = none ∧
    (sendOne c4Cfg [] ⟨.ok "no json here", .resp 200, 7⟩ c4Req 2).record.status =
      "success" ∧
    (sendOne c4Cfg [] ⟨.ok "no json here", .resp 200, 7⟩ c4Req 2).record.last_profile_name
      = "" ∧
    (sendOne c4Cfg [] ⟨.ok "no json here", .resp 200, 7⟩ c4Req 2).newLogs =
      [⟨2, 1, "", "", "https://x.com/p", "success",
        "OK | JSON parse error: " ++ "No JSON object found in response",
        "no json here", 7⟩] ∧
    ∀ l ∈ (sendOne c4Cfg [] ⟨.ok "no json here", .resp 200, 7⟩ c4Req 2).newLogs,
      strContains l.message "JSON parse error" :=
  c5_parse_failure_stays_success c4Cfg [] ⟨.ok "no json here", .resp 200, 7⟩ c4Req 2
    "no json here" "No JSON object found in response"
    (by decide) (by decide) (Or.inr rfl) rfl rfl

/-- Claim C8: when the reply parses to a JSON object and the configured
webhook GET fails (non-200 status) or raises, the request still ends with
status `success`, nothing is raised, the webhook outcome is appended as
text to the log message, and the raw reply text is stored verbatim in the
log row: webhook failure is never escalated to a send failure. -/
theorem c8_webhook_failure_not_escalated (cfg : Config) (logs : List ProfileLog)
    (env : SendEnv) (r : ProfileRequest) (logId : Nat) (reply : String)
    (kvs : List (String × Json))
    (hkey : cfg.api_key ≠ "") (hid : cfg.assistant_id ≠ "")
    (hnd : r.profile_url = "" ∨ searchDuplicate logs r.profile_url = none)
    (hclient : env.clientResult = .ok reply)
    (hparse : (parseReply reply).1 = some (.obj kvs))
    (hwh : cfg.webhook_url ≠ "")
    (hfail : webhookFailed env.webhook = true) :
    (sendOne cfg logs env r logId).record.status = "success" ∧
    (sendOne cfg logs env r logId).raised = none ∧
    (sendOne cfg logs env r logId).webhookCalled = true ∧
    (sendOne cfg logs env r logId).newLogs.length = 1 ∧
    (∀ l ∈ (sendOne cfg logs env r logId).newLogs,
      l.status = "success" ∧ l.response_json = reply ∧
      strContains l.message (webhookSuffix env.webhook)) ∧
    ((∃ code, env.webhook = .resp code ∧ code ≠ 200 ∧
        webhookSuffix env.webhook = " | Webhook Failed (" ++ toString code ++ ")") ∨
      (∃ m, env.webhook = .exc m ∧
        webhookSuffix env.webhook = " | Webhook Error: " ++ m)) := by
  have hout : sendOne cfg logs env r logId =
      { record := { r with
          last_profile_name := (pyOr (jget kvs "display_name")
            (pyOr (jget kvs "profile_name") (.str ""))).asStr
          last_response_status := (pyOr (jget kvs "status") (.str "OK")).asStr ++
            webhookSuffix env.webhook
          last_sent_at := some env.now
          status := "success" }
        newLogs := [⟨logId, r.id,
          (pyOr (jget kvs "display_name") (pyOr (jget kvs "profile_name") (.str ""))).asStr,
          (pyOr (jget kvs "brand") (.str "")).asStr,
          (if r.profile_url ≠ "" then r.profile_url
            else (pyOr (jget kvs "profile_url") (.str "")).asStr),
          "success",
          ((pyOr (jget kvs "status") (.str "OK")).asStr ++ webhookSuffix env.webhook) ++
            (match (parseReply reply).2 with
              | some pe => " | JSON parse error: " ++ pe
              | none => ""),
          reply, env.now⟩]
        raised := none, assistantCalled := true, webhookCalled := true } := by
    rw [sendOne_eq_main cfg logs env r logId hkey hid hnd]
    simp [sendOneMain, hclient, hparse, hwh]
  rw [hout]
  refine ⟨rfl, rfl, rfl, rfl, ?_, ?_⟩
  · intro l hl
    simp only [List.mem_singleton] at hl
    subst hl
    refine ⟨rfl, rfl, ?_⟩
    exact ⟨(pyOr (jget kvs "status") (.str "OK")).asStr,
      (match (parseReply reply).2 with
        | some pe => " | JSON parse error: " ++ pe
        | none => ""),
      by rw [strAppend_assoc]⟩
  · cases hwb : env.webhook with
    | resp code =>
      left
      have hcode : code ≠ 200 := by
        rw [hwb] at hfail
        simpa [webhookFailed] using hfail
      exact ⟨code, rfl, hcode, by simp [webhookSuffix, hcode]⟩
    | exc m =>
      right
      exact ⟨m, rfl, rfl⟩

/-- Environment of the C8 witness: client replies with the C4 object, the
webhook answers 500. -/
def c8Env : SendEnv := ⟨.ok c4PureReply, .resp 500, 9⟩

/-- Configuration of the C8 witness: same as C4 but with a webhook. -/
def c8Cfg : Config := ⟨"k", "a", "https://api.openai.com/v1", "https://hook.example/h"⟩

/-- Witness for C8 at the concrete C4 reply and a 500 webhook response. -/
theorem c8_webhook_failure_not_escalated_witness :
    (sendOne c8Cfg [] c8Env c4Req 4).record.status = "success" ∧
    (sendOne c8Cfg [] c8Env c4Req 4).raised = none ∧
    (sendOne c8Cfg [] c8Env c4Req 4).webhookCalled = true ∧
    (sendOne c8Cfg [] c8Env c4Req 4).newLogs.length = 1 ∧
    (∀ l ∈ (sendOne c8Cfg [] c8Env c4Req 4).newLogs,
      l.status = "success" ∧ l.response_json = c4PureReply ∧
      strContains l.message (webhookSuffix c8Env.webhook)) ∧
    ((∃ code, c8Env.webhook = .resp code ∧ code ≠ 200 ∧
        webhookSuffix c8Env.webhook = " | Webhook Failed (" ++ toString code ++ ")") ∨
      (∃ m, c8Env.webhook = .exc m ∧
        webhookSuffix c8Env.webhook = " | Webhook Error: " ++ m)) :=
  c8_webhook_failure_not_escalated c8Cfg [] c8Env c4Req 4 c4PureReply
    [("display_name", .str "Acme"), ("status", .str "ok")]
    (by decide) (by decide) (Or.inr rfl) rfl rfl (by decide) (by decide)

/-- Claim C10: the webhook GET is issued exactly when the parsed reply is a
JSON object and a webhook URL is configured; in particular, when the reply
does not parse to a dictionary no webhook request is made even with a
webhook URL configured. -/
theorem c10_webhook_only_for_dict (cfg : Config) (logs : List ProfileLog)
    (env : SendEnv) (r : ProfileRequest) (logId : Nat) (reply : String)
    (hkey : cfg.api_key ≠ "") (hid : cfg.assistant_id ≠ "")
    (hnd : r.profile_url = "" ∨ searchDuplicate logs r.profile_url = none)
    (hclient : env.clientResult = .ok reply) :
    (sendOne cfg logs env r logId).webhookCalled = true ↔
      ((∃ kvs, (parseReply reply).1 = some (.obj kvs)) ∧ cfg.webhook_url ≠ "") := by
  rw [sendOne_eq_main cfg logs env r logId hkey hid hnd]
  rcases hp : (parseReply reply).1 with _ | j
  · simp [sendOneMain, hclient, hp]
  · cases j with
    | obj kvs => simp [sendOneMain, hclient, hp]
    | null => simp [sendOneMain, hclient, hp]
    | bool b => simp [sendOneMain, hclient, hp]
    | num n => simp [sendOneMain, hclient, hp]
    | str s => simp [sendOneMain, hclient, hp]
    | arr xs => simp [sendOneMain, hclient, hp]

/-- Witness for C10: a reply parsing to a JSON array with a webhook
configured does not trigger the webhook. -/
theorem c10_webhook_only_for_dict_witness :
    (sendOne c8Cfg [] ⟨.ok "[1, 2]", .resp 200, 9⟩ c4Req 5).webhookCalled = true ↔
      ((∃ kvs, (parseReply "[1, 2]").1 = some (.obj kvs)) ∧ c8Cfg.webhook_url ≠ "") :=
  c10_webhook_only_for_dict c8Cfg [] ⟨.ok "[1, 2]", .resp 200, 9⟩ c4Req 5 "[1, 2]"
    (by decide) (by decide) (Or.inr rfl) rfl

end SocialMediaOutreach
